import Mathlib

set_option maxRecDepth 40000

/-!
# Verification of the mm_bronze ingestion-to-storage pipeline

Shallow embedding, in Lean 4, of the core of the `mm_bronze` repository:

* the fingerprint and storage-path derivation functions of the two pipeline
  variants (`mm_bronze/storage/api/processing.py` and
  `mm_bronze/storage/sftp/processing.py`),
* the dedup/metadata-store and ingestion-log operations, together with a model
  of the relational store's transaction semantics,
* the two pipeline orchestrators and their consumer loops,
* the sandboxed virtual filesystem of the SFTP front door
  (`mm_bronze/ingestion/sftp/server.py`): path resolution (`_realpath`) and
  the permission gate (`_check_permission`).

Machine integers are modelled as `Nat` with explicit `% 2^32` where 32-bit
overflow matters; payload bytes are `List Nat` with each element a byte value.
Fallible operations return `Except`.
-/

namespace MmBronze

/-- Payload bytes: each element is one byte value (0–255). -/
abbrev Bytes := List Nat

/-- Decidable equality for `Except`, by cases; needed so that concrete runs
of the fallible operations can be evaluated by `decide`. -/
instance {ε α : Type} [DecidableEq ε] [DecidableEq α] : DecidableEq (Except ε α) :=
  fun x y =>
    match x, y with
    | .ok a, .ok b =>
        match decEq a b with
        | .isTrue h => .isTrue (congrArg Except.ok h)
        | .isFalse h => .isFalse (fun c => h (Except.ok.inj c))
    | .error a, .error b =>
        match decEq a b with
        | .isTrue h => .isTrue (congrArg Except.error h)
        | .isFalse h => .isFalse (fun c => h (Except.error.inj c))
    | .ok _, .error _ => .isFalse (fun c => Except.noConfusion c)
    | .error _, .ok _ => .isFalse (fun c => Except.noConfusion c)

/-! ## SHA-256 (model of Python's `hashlib.sha256(...).digest()`)

Executable implementation of FIPS 180-4 SHA-256 over byte lists, used to give
meaning to `compute_fingerprint` in both pipeline variants, which call
`hashlib.sha256` on the raw payload bytes. 32-bit words are `Nat` values kept
below `2^32` by explicit reductions. -/

/-- 32-bit truncation. -/
def w32 (x : Nat) : Nat := x % 4294967296

/-- Right rotation of a 32-bit word by `n` bits. -/
def rotr (n x : Nat) : Nat := w32 ((x >>> n) ||| (x <<< (32 - n)))

/-- Bitwise complement of a 32-bit word. -/
def not32 (x : Nat) : Nat := 4294967295 - x

/-- SHA-256 `Ch` function. -/
def ch (x y z : Nat) : Nat := (x &&& y) ^^^ (not32 x &&& z)

/-- SHA-256 `Maj` function. -/
def maj (x y z : Nat) : Nat := (x &&& y) ^^^ (x &&& z) ^^^ (y &&& z)

/-- SHA-256 big sigma 0. -/
def bigSigma0 (x : Nat) : Nat := rotr 2 x ^^^ rotr 13 x ^^^ rotr 22 x

/-- SHA-256 big sigma 1. -/
def bigSigma1 (x : Nat) : Nat := rotr 6 x ^^^ rotr 11 x ^^^ rotr 25 x

/-- SHA-256 small sigma 0. -/
def smallSigma0 (x : Nat) : Nat := rotr 7 x ^^^ rotr 18 x ^^^ (x >>> 3)

/-- SHA-256 small sigma 1. -/
def smallSigma1 (x : Nat) : Nat := rotr 17 x ^^^ rotr 19 x ^^^ (x >>> 10)

/-- The 64 SHA-256 round constants, in decimal. -/
def sha256K : List Nat :=
  [1116352408, 1899447441, 3049323471, 3921009573, 961987163,
   1508970993, 2453635748, 2870763221, 3624381080, 310598401,
   607225278, 1426881987, 1925078388, 2162078206, 2614888103,
   3248222580, 3835390401, 4022224774, 264347078, 604807628,
   770255983, 1249150122, 1555081692, 1996064986, 2554220882,
   2821834349, 2952996808, 3210313671, 3336571891, 3584528711,
   113926993, 338241895, 666307205, 773529912, 1294757372,
   1396182291, 1695183700, 1986661051, 2177026350, 2456956037,
   2730485921, 2820302411, 3259730800, 3345764771, 3516065817,
   3600352804, 4094571909, 275423344, 430227734, 506948616,
   659060556, 883997877, 958139571, 1322822218, 1537002063,
   1747873779, 1955562222, 2024104815, 2227730452, 2361852424,
   2428436474, 2756734187, 3204031479, 3329325298]

/-- Working state of the compression function: eight 32-bit words. -/
structure Hash8 where
  a : Nat
  b : Nat
  c : Nat
  d : Nat
  e : Nat
  f : Nat
  g : Nat
  h : Nat
deriving Repr, DecidableEq

/-- SHA-256 initial hash value, in decimal. -/
def sha256H0 : Hash8 :=
  ⟨1779033703, 3144134277, 1013904242, 2773480762,
   1359893119, 2600822924, 528734635, 1541459225⟩

/-- Merkle–Damgård padding: append `0x80`, zero bytes, and the 64-bit
big-endian bit length, reaching a multiple of 64 bytes. -/
def sha256Pad (msg : Bytes) : Bytes :=
  let len := msg.length
  let zeros := (55 + 64 - len % 64) % 64
  let bitLen := len * 8
  msg ++ [0x80] ++ List.replicate zeros 0 ++
    [bitLen / 2^56 % 256, bitLen / 2^48 % 256, bitLen / 2^40 % 256,
     bitLen / 2^32 % 256, bitLen / 2^24 % 256, bitLen / 2^16 % 256,
     bitLen / 2^8 % 256, bitLen % 256]

/-- Group a padded byte list into big-endian 32-bit words. -/
def bytesToWords : Bytes → List Nat
  | b0 :: b1 :: b2 :: b3 :: rest =>
      (b0 * 2^24 + b1 * 2^16 + b2 * 2^8 + b3) :: bytesToWords rest
  | _ => []

/-- Split a word list into 16-word blocks. -/
def wordsToBlocks : List Nat → List (List Nat)
  | w0 :: w1 :: w2 :: w3 :: w4 :: w5 :: w6 :: w7 ::
    w8 :: w9 :: w10 :: w11 :: w12 :: w13 :: w14 :: w15 :: rest =>
      [w0, w1, w2, w3, w4, w5, w6, w7, w8, w9, w10, w11, w12, w13, w14, w15] ::
        wordsToBlocks rest
  | _ => []

/-- Extend a 16-word block to the 64-entry message schedule (reversed
accumulator: head is the most recent word). -/
def scheduleAux : Nat → List Nat → List Nat
  | 0, acc => acc
  | n + 1, acc =>
      let w2 := acc.getD 1 0
      let w7 := acc.getD 6 0
      let w15 := acc.getD 14 0
      let w16 := acc.getD 15 0
      scheduleAux n (w32 (smallSigma1 w2 + w7 + smallSigma0 w15 + w16) :: acc)

/-- The 64-entry message schedule of one block, in order W0..W63. -/
def schedule (block : List Nat) : List Nat :=
  (scheduleAux 48 block.reverse).reverse

/-- One round of the SHA-256 compression function. -/
def sha256Round (s : Hash8) (k w : Nat) : Hash8 :=
  let t1 := w32 (s.h + bigSigma1 s.e + ch s.e s.f s.g + k + w)
  let t2 := w32 (bigSigma0 s.a + maj s.a s.b s.c)
  ⟨w32 (t1 + t2), s.a, s.b, s.c, w32 (s.d + t1), s.e, s.f, s.g⟩

/-- Process one 16-word block, updating the running hash. -/
def sha256Block (s : Hash8) (block : List Nat) : Hash8 :=
  let ws := schedule block
  let t := (sha256K.zip ws).foldl (fun st kw => sha256Round st kw.1 kw.2) s
  ⟨w32 (s.a + t.a), w32 (s.b + t.b), w32 (s.c + t.c), w32 (s.d + t.d),
   w32 (s.e + t.e), w32 (s.f + t.f), w32 (s.g + t.g), w32 (s.h + t.h)⟩

/-- Big-endian bytes of a 32-bit word. -/
def be32 (x : Nat) : Bytes :=
  [x / 2^24 % 256, x / 2^16 % 256, x / 2^8 % 256, x % 256]

/-- Serialize the final hash state as the 32-byte digest. -/
def digestBytes (s : Hash8) : Bytes :=
  be32 s.a ++ be32 s.b ++ be32 s.c ++ be32 s.d ++
  be32 s.e ++ be32 s.f ++ be32 s.g ++ be32 s.h

/-- SHA-256 digest of a byte list, as the 32 raw digest bytes.  Models
`hashlib.sha256(data).digest()`. -/
def sha256 (data : Bytes) : Bytes :=
  digestBytes ((wordsToBlocks (bytesToWords (sha256Pad data))).foldl sha256Block sha256H0)

/-- One byte as two lowercase hex characters. -/
def hexByte (b : Nat) : List Char :=
  let digit := fun n => if n < 10 then Char.ofNat (48 + n) else Char.ofNat (87 + n)
  [digit (b / 16 % 16), digit (b % 16)]

/-- Lowercase hex string of a byte list.  Models Python's `bytes.hex()`. -/
def bytesHex (bs : Bytes) : String :=
  String.mk (bs.flatMap hexByte)

/-- Bytes of an ASCII string (models `str.encode()` for ASCII input). -/
def strBytes (s : String) : Bytes := s.toList.map Char.toNat

/-! ## Python string and `pathlib` helpers

Models of the Python standard-library operations the path builders use:
`str.lower` (for the ASCII inputs that occur here), `str.lstrip('.')`,
`pathlib.PurePath.name` / `.suffix` / `.stem`. -/

/-- ASCII lowercase of one character (Python `str.lower` on ASCII input). -/
def lowerChar (c : Char) : Char :=
  if 65 ≤ c.toNat ∧ c.toNat ≤ 90 then Char.ofNat (c.toNat + 32) else c

/-- Models Python `str.lower()` for ASCII strings. -/
def pyLower (s : String) : String := String.mk (s.toList.map lowerChar)

/-- Models Python `str.lstrip('.')`: drop leading dots. -/
def lstripDot (s : String) : String := String.mk (s.toList.dropWhile (· == '.'))

/-- Split a character list on a separator character; like Python
`str.split(sep)`, empty fields included. -/
def pySplit (sep : Char) : List Char → List (List Char)
  | [] => [[]]
  | c :: rest =>
      match pySplit sep rest with
      | g :: gs => if c = sep then [] :: g :: gs else (c :: g) :: gs
      | [] => [[c]]

/-- Models Python slicing `s[:n]`. -/
def pyTake (s : String) (n : Nat) : String := String.mk (s.toList.take n)

/-- Models Python `sep.join(parts)`. -/
def pyJoin (sep : String) : List String → String
  | [] => ""
  | [x] => x
  | x :: xs => x ++ sep ++ pyJoin sep xs

/-- Index of the last occurrence of `c`, like Python `str.rfind` (with `none`
for `-1`). -/
def rfindChar (c : Char) : List Char → Option Nat
  | [] => none
  | x :: xs =>
      match rfindChar c xs with
      | some i => some (i + 1)
      | none => if x = c then some 0 else none

/-- Models `pathlib.PurePosixPath(p).name`: the final path component.
`pathlib` drops empty and `"."` components but keeps `".."`. -/
def pyPathName (p : String) : String :=
  ((((pySplit '/' p.toList).map String.mk).filter
      (fun seg => seg != "" && seg != ".")).getLast?).getD ""

/-- Models `pathlib.PurePosixPath(p).suffix`: the last dot-suffix of the final
component, when the dot is neither its first nor its last character. -/
def pyPathSuffix (p : String) : String :=
  let name := (pyPathName p).toList
  match rfindChar '.' name with
  | some i => if 0 < i ∧ i + 1 < name.length then String.mk (name.drop i) else ""
  | none => ""

/-- Models `pathlib.PurePosixPath(p).stem`: the final component without its
suffix. -/
def pyPathStem (p : String) : String :=
  let name := (pyPathName p).toList
  match rfindChar '.' name with
  | some i => if 0 < i ∧ i + 1 < name.length then String.mk (name.take i) else String.mk name
  | none => String.mk name

/-! ## Fingerprint & path derivation

Translations of `compute_fingerprint` and the path builders of
`mm_bronze/storage/api/processing.py` and
`mm_bronze/storage/sftp/processing.py`. -/

/-- The request-based (API) envelope as consumed by
`mm_bronze/storage/api/processing.py`: the JSON event with its `body` already
base64-decoded to payload bytes. -/
structure ApiEnvelope where
  uuid : String
  format : String
  content_type : String
  subtype : String
  version : String
  /-- the payload bytes, i.e. `base64.b64decode(envelope["body"])` -/
  body : Bytes
deriving Repr, DecidableEq

/-- `compute_fingerprint` of `mm_bronze/storage/api/processing.py`:
`hashlib.sha256` over the raw bytes, returned as the raw digest. -/
def api_compute_fingerprint (data : Bytes) : Bytes := sha256 data

/-- `compute_fingerprint` of `mm_bronze/storage/sftp/processing.py`:
`hashlib.sha256` over the raw bytes, returned as the raw digest. -/
def sftp_compute_fingerprint (data : Bytes) : Bytes := sha256 data

/-- `build_path_by_fp` of `mm_bronze/storage/api/processing.py`. -/
def build_path_by_fp (event : ApiEnvelope) (fp_hex : String)
    ( base_prefix : String := "bronze") : String :=
  let short_fp := pyTake fp_hex 16
  let file_ext := pyLower event.format
  pyJoin "/"
    [ base_prefix, event.content_type, event.format, event.subtype,
     short_fp ++ "." ++ file_ext]

/-- `build_path_for_sftp_file` of `mm_bronze/storage/sftp/processing.py`.
Note the extension is `path_obj.suffix.lstrip(".") or "bin"`, taken verbatim
(no lowercasing). -/
def build_path_for_sftp_file (original_path fp_hex username : String)
    ( base_prefix : String := "bronze") : String :=
  let file_ext :=
    let e := lstripDot (pyPathSuffix original_path)
    if e = "" then "bin" else e
  let short_fp := pyTake fp_hex 16
  pyJoin "/"
    [ base_prefix, "sftp", username, short_fp ++ "." ++ file_ext]

/-! ## Relational store model

The relational store is an external collaborator (asyncpg / PostgreSQL).
Modelled from the spec: the `ingestion.raw_api_ingest` and
`ingestion.raw_ingestion` tables each carry a uniqueness constraint on the
`fingerprint` column, and `ingestion.ingestion_log` is append-only.  The
transaction primitive follows PostgreSQL semantics, which the code relies on
through `asyncpg`: statements inside `conn.transaction()` commit together on a
clean exit and roll back when an exception leaves the block, a statement that
errors puts the transaction into a failed (aborted) state, and any further
statement in an aborted transaction fails with
`InFailedSQLTransactionError` until the block ends. -/

/-- One row of `ingestion.ingestion_log`. -/
structure LogEntry where
  object_id : String
  status : String
  message : Option String
deriving Repr, DecidableEq

/-- One row of `ingestion.raw_api_ingest`. -/
structure ApiRecord where
  object_id : String
  format : String
  content_type : String
  subtype : String
  data_version : String
  storage_path : String
  fingerprint : Bytes
deriving Repr, DecidableEq

/-- The JSONB `source_metadata` column written for SFTP rows. -/
structure SftpSourceMeta where
  username : String
  original_path : String
  original_filename : String
  file_size : Nat
  upload_method : String
deriving Repr, DecidableEq

/-- One row of `ingestion.raw_ingestion`. -/
structure SftpRecord where
  object_id : String
  ingestion_source : String
  format : String
  content_type : String
  subtype : String
  data_version : String
  storage_path : String
  fingerprint : Bytes
  source_metadata : SftpSourceMeta
deriving Repr, DecidableEq

/-- Committed database state: the two metadata tables and the ingestion log. -/
structure DB where
  apiRecords : List ApiRecord
  sftpRecords : List SftpRecord
  log : List LogEntry
deriving Repr, DecidableEq

/-- The empty database. -/
def DB.empty : DB := ⟨[], [], []⟩

/-- Errors raised by the store (as surfaced by asyncpg). -/
inductive PgError
  | uniqueViolation
  | inFailedSQLTransaction
deriving Repr, DecidableEq

/-- An open transaction: the draft state it would commit, plus the
PostgreSQL failed-transaction flag. -/
structure Txn where
  draft : DB
  aborted : Bool
deriving Repr, DecidableEq

/-- A single SQL statement issued by the processing code. -/
inductive Stmt
  | insertApiRecord (r : ApiRecord)
  | insertSftpRecord (r : SftpRecord)
  | insertLog (e : LogEntry)
deriving Repr, DecidableEq

/-- Does some row of `ingestion.raw_api_ingest` already carry `fp`? -/
def DB.hasApiFingerprint (db : DB) (fp : Bytes) : Bool :=
  db.apiRecords.any (fun r => r.fingerprint == fp)

/-- Does some row of `ingestion.raw_ingestion` already carry `fp`? -/
def DB.hasSftpFingerprint (db : DB) (fp : Bytes) : Bool :=
  db.sftpRecords.any (fun r => r.fingerprint == fp)

/-- `conn.execute` inside a transaction, with PostgreSQL semantics: an
aborted transaction rejects every statement; an insert that violates the
fingerprint uniqueness constraint raises `UniqueViolationError` and aborts
the transaction. -/
def Txn.execute (t : Txn) (s : Stmt) : Except PgError Unit × Txn :=
  if t.aborted then (.error .inFailedSQLTransaction, t)
  else
    match s with
    | .insertApiRecord r =>
        if t.draft.hasApiFingerprint r.fingerprint then
          (.error .uniqueViolation, { t with aborted := true })
        else
          (.ok (), { t with draft := { t.draft with apiRecords := t.draft.apiRecords ++ [r] } })
    | .insertSftpRecord r =>
        if t.draft.hasSftpFingerprint r.fingerprint then
          (.error .uniqueViolation, { t with aborted := true })
        else
          (.ok (), { t with draft := { t.draft with sftpRecords := t.draft.sftpRecords ++ [r] } })
    | .insertLog e =>
        (.ok (), { t with draft := { t.draft with log := t.draft.log ++ [e] } })

/-! ## Ingestion log and dedup/metadata operations -/

/-- `log_ingestion` (identical in both processing modules): a single
auto-committed insert into `ingestion.ingestion_log`. -/
def log_ingestion (object_id status : String) (message : Option String) (db : DB) : DB :=
  { db with log := db.log ++ [⟨object_id, status, message⟩] }

/-- `store_metadata` of `mm_bronze/storage/api/processing.py`: one transaction
holding the `raw_api_ingest` insert (its `UniqueViolationError` caught and
mapped to status `duplicate`) followed by the `ingestion_log` insert. -/
def store_metadata (event : ApiEnvelope) (fingerprint : Bytes) (path : String)
    (db : DB) : Except PgError Unit × DB :=
  let t0 : Txn := ⟨db, false⟩
  let (r1, t1) := t0.execute (.insertApiRecord
    ⟨event.uuid, event.format, event.content_type, event.subtype,
     event.version, path, fingerprint⟩)
  match r1 with
  | .error .inFailedSQLTransaction => (.error .inFailedSQLTransaction, db)
  | _ =>
      let status := match r1 with
        | .ok _ => "ingested"
        | .error _ => "duplicate"
      let (r2, t2) := t1.execute (.insertLog ⟨event.uuid, status, none⟩)
      match r2 with
      | .ok _ => (.ok (), t2.draft)
      | .error e => (.error e, db)

/-- The extension-to-content-type table of `store_sftp_metadata`. -/
def content_type_map (file_ext : String) : String :=
  if file_ext = "json" then "json"
  else if file_ext = "xml" then "xml"
  else if file_ext = "txt" then "text"
  else if file_ext = "csv" then "text"
  else if file_ext = "pdf" then "binary"
  else if file_ext = "dcm" then "binary"
  else if file_ext = "zip" then "binary"
  else "binary"

/-- `store_sftp_metadata` of `mm_bronze/storage/sftp/processing.py`: derives
format/content-type/subtype from the original filename, then, inside one
transaction, inserts the `raw_ingestion` row (catching
`UniqueViolationError` as status `duplicate`) followed by the
`ingestion_log` insert. -/
def store_sftp_metadata (file_uuid original_path username : String) (size : Nat)
    (fingerprint : Bytes) (storage_path : String) (db : DB) :
    Except PgError Unit × DB :=
  let file_ext := pyLower (lstripDot (pyPathSuffix original_path))
  let content_type := content_type_map file_ext
  let subtype := if pyPathStem original_path = "" then "document" else pyPathStem original_path
  let source_metadata : SftpSourceMeta :=
    ⟨username, original_path, pyPathName original_path, size, "sftp"⟩
  let t0 : Txn := ⟨db, false⟩
  let (r1, t1) := t0.execute (.insertSftpRecord
    ⟨file_uuid, "sftp", (if file_ext = "" then "unknown" else file_ext),
     content_type, subtype, "1.0", storage_path, fingerprint, source_metadata⟩)
  match r1 with
  | .error .inFailedSQLTransaction => (.error .inFailedSQLTransaction, db)
  | _ =>
      let status := match r1 with
        | .ok _ => "ingested"
        | .error _ => "duplicate"
      let msg := "SFTP upload: " ++ original_path ++ " by " ++ username ++
        " (" ++ toString size ++ " bytes)"
      let (r2, t2) := t1.execute (.insertLog ⟨file_uuid, status, some msg⟩)
      match r2 with
      | .ok _ => (.ok (), t2.draft)
      | .error e => (.error e, db)

/-! ## Storage writer, source-file cleanup and the two orchestrators

Object storage (`AsyncFS`) and the SFTP landing filesystem are external;
their states are explicit.  Whether the adapter write or the local remove
succeeds is environmental, so it enters as a boolean parameter of the run. -/

/-- Object-storage state: the files the adapter has written, newest last. -/
structure Storage where
  files : List (String × Bytes)
deriving Repr, DecidableEq

/-- The SFTP landing filesystem: uploaded files still present. -/
abbrev LocalFS := List (String × Bytes)

/-- Errors that a pipeline run can raise past its own handlers. -/
inductive ProcErr
  | fileNotFound (path : String)
  | pg (e : PgError)
deriving Repr, DecidableEq

/-- The message attached to a caught exception (Python `str(e)`), as far as
the model distinguishes it. -/
def errMsg : ProcErr → String
  | .fileNotFound p => "Failed to read file " ++ p
  | .pg .uniqueViolation => "duplicate key value violates unique constraint"
  | .pg .inFailedSQLTransaction =>
      "current transaction is aborted, commands ignored until end of transaction block"

/-- `write_to_storage` of `mm_bronze/storage/api/processing.py`: try the
adapter write; log `complete` on success and `failed` on any adapter error;
never re-raise. -/
def api_write_to_storage (fsOk : Bool) (path : String) (data : Bytes)
    (uid : String) (st : Storage) (db : DB) : Storage × DB :=
  if fsOk then
    ({ files := st.files ++ [(path, data)] }, log_ingestion uid "complete" none db)
  else
    (st, log_ingestion uid "failed" (some "storage write error") db)

/-- `write_to_storage` of `mm_bronze/storage/sftp/processing.py` (same
behavior as the API variant). -/
def sftp_write_to_storage (fsOk : Bool) (path : String) (data : Bytes)
    (uid : String) (st : Storage) (db : DB) : Storage × DB :=
  if fsOk then
    ({ files := st.files ++ [(path, data)] }, log_ingestion uid "complete" none db)
  else
    (st, log_ingestion uid "failed" (some "storage write error") db)

/-- Remove the entry for `p` from the landing filesystem. -/
def removeFile (p : String) (lfs : LocalFS) : LocalFS :=
  lfs.filter (fun f => f.1 != p)

/-- Look up an uploaded file's bytes. -/
def lookupFile (p : String) (lfs : LocalFS) : Option Bytes :=
  (lfs.find? (fun f => f.1 == p)).map (·.2)

/-- `cleanup_uploaded_file` of `mm_bronze/storage/sftp/processing.py`: if the
file exists, remove it and log `cleaned_up`; a failing remove is caught and
logged as `cleanup_failed`; a missing file logs nothing.  Never raises. -/
def cleanup_uploaded_file (removeOk : Bool) (file_path file_uuid : String)
    (lfs : LocalFS) (db : DB) : LocalFS × DB :=
  if (lookupFile file_path lfs).isSome then
    if removeOk then
      (removeFile file_path lfs,
       log_ingestion file_uuid "cleaned_up" (some ("Removed original file: " ++ file_path)) db)
    else
      (lfs, log_ingestion file_uuid "cleanup_failed" (some "remove error") db)
  else
    (lfs, db)

/-- `process_message` of `mm_bronze/storage/api/processing.py`: log `started`,
decode, fingerprint, build the path, store metadata, write to storage.  No
handler of its own: a store error propagates to the caller. -/
def process_message (env : ApiEnvelope) (fsOk : Bool) (st : Storage) (db : DB) :
    Except PgError Unit × Storage × DB :=
  let db := log_ingestion env.uuid "started" none db
  let payload_bytes := env.body
  let fingerprint := api_compute_fingerprint payload_bytes
  let fp_hex := bytesHex fingerprint
  let path := build_path_by_fp env fp_hex
  match store_metadata env fingerprint path db with
  | (.error e, db) => (.error e, st, db)
  | (.ok _, db) =>
      let (st, db) := api_write_to_storage fsOk path payload_bytes env.uuid st db
      (.ok (), st, db)

/-- The file-drop envelope consumed by
`mm_bronze/storage/sftp/processing.py`: the upload-completion event fields
the processing code reads. -/
structure SftpEnvelope where
  path : String
  username : String
  size : Nat
deriving Repr, DecidableEq

/-- `process_sftp_message` of `mm_bronze/storage/sftp/processing.py`.
`file_uuid` is the value of the `str(uuid.uuid4())` call of this run, made
explicit.  Logs `started`; then, under a handler that logs `failed` and
re-raises: read the uploaded file, fingerprint it, build the path, store
metadata, write to storage (which swallows its own failures) and clean up
the original file (which swallows its own failures). -/
def process_sftp_message (file_uuid : String) (env : SftpEnvelope)
    (fsOk removeOk : Bool) (lfs : LocalFS) (st : Storage) (db : DB) :
    Except ProcErr Unit × LocalFS × Storage × DB :=
  let db := log_ingestion file_uuid "started" none db
  match lookupFile env.path lfs with
  | none =>
      let e := ProcErr.fileNotFound env.path
      (.error e, lfs, st, log_ingestion file_uuid "failed" (some (errMsg e)) db)
  | some payload_bytes =>
      let fingerprint := sftp_compute_fingerprint payload_bytes
      let fp_hex := bytesHex fingerprint
      let path := build_path_for_sftp_file env.path fp_hex env.username
      match store_sftp_metadata file_uuid env.path env.username env.size fingerprint path db with
      | (.error e, db) =>
          (.error (.pg e), lfs, st, log_ingestion file_uuid "failed" (some (errMsg (.pg e))) db)
      | (.ok _, db) =>
          let (st, db) := sftp_write_to_storage fsOk path payload_bytes file_uuid st db
          let (lfs, db) := cleanup_uploaded_file removeOk env.path file_uuid lfs db
          (.ok (), lfs, st, db)

/-! ## Consumer loops of the two orchestrator processes

`main` of `mm_bronze/storage/api/app.py` and of
`mm_bronze/storage/sftp/app.py`.  The Kafka consumer is external; a loop run
is modelled over the list of fetched messages, recording for each attempted
message the processing outcome, and counting offset commits. -/

/-- The consume loop of `mm_bronze/storage/api/app.py`: process, then commit.
No handler: a processing exception leaves the loop, so the failing message
is recorded unprocessed-after and not committed, and later messages are
never attempted. -/
def apiMainLoop {M E : Type} (process : M → Except E Unit) :
    List M → List (M × Except E Unit) × Nat × Option E
  | [] => ([], 0, none)
  | m :: ms =>
      match process m with
      | .ok _ =>
          let (att, commits, halt) := apiMainLoop process ms
          ((m, .ok ()) :: att, commits + 1, halt)
      | .error e => ([(m, .error e)], 0, some e)

/-- The consume loop of `mm_bronze/storage/sftp/app.py`: process inside a
`try`; commit in the success branch and again in the handler, so every
message is committed and the loop always continues. -/
def sftpMainLoop {M E : Type} (process : M → Except E Unit) :
    List M → List (M × Except E Unit) × Nat
  | [] => ([], 0)
  | m :: ms =>
      let r := process m
      let (att, commits) := sftpMainLoop process ms
      ((m, r) :: att, commits + 1)

/-! ## Sandboxed virtual filesystem (`mm_bronze/ingestion/sftp/server.py`)

Filesystem paths are lists of segments of an absolute path.  Symlinks are a
table from (already resolved) absolute paths to raw absolute targets; path
resolution follows `os.path.abspath` (lexical normalization) and
`pathlib.Path.resolve` (physical resolution, component by component, with
fuel so that symlink loops fail like the `OSError` Python raises). -/

/-- Segments of an absolute path. -/
abbrev AbsPath := List String

/-- Split a client path string into its non-empty segments.  Leading slashes
produce empty segments, which are dropped — this also absorbs the
`path.lstrip('/')` step of `_realpath`. -/
def splitPathSegs (s : String) : List String :=
  ((pySplit '/' s.toList).map String.mk).filter (fun seg => seg != "")

/-- Lexical normalization of `os.path.abspath` / `os.path.normpath` on an
absolute path: drop `.`, apply `..` to the prefix (staying at the root). -/
def normalizeSegs (segs : List String) : AbsPath :=
  segs.foldl
    (fun acc s =>
      if s = "." then acc
      else if s = ".." then acc.dropLast
      else acc ++ [s])
    []

/-- The symlink table: resolved absolute path of the link, raw absolute
target segments. -/
abbrev SymTable := List (AbsPath × List String)

/-- The target of the symlink at `p`, if `p` is a symlink. -/
def lookupLink (links : SymTable) (p : AbsPath) : Option (List String) :=
  (links.find? (fun l => l.1 == p)).map (·.2)

/-- Physical resolution, component by component: a component that is a
symlink restarts resolution at the link target; `..` applies to the resolved
prefix.  `none` when the fuel runs out (symlink loop — `OSError`). -/
def resolveAux (links : SymTable) : Nat → AbsPath → List String → Option AbsPath
  | 0, _, _ => none
  | _ + 1, acc, [] => some acc
  | fuel + 1, acc, s :: rest =>
      if s = "." then resolveAux links fuel acc rest
      else if s = ".." then resolveAux links fuel acc.dropLast rest
      else
        match lookupLink links (acc ++ [s]) with
        | some target => resolveAux links fuel [] (target ++ rest)
        | none => resolveAux links fuel (acc ++ [s]) rest

/-- Models `pathlib.Path(p).resolve()` on an absolute path under the symlink
table `links`. -/
def pyResolve (links : SymTable) (p : List String) : Option AbsPath :=
  resolveAux links ((p.length + 1) * (links.length + 1) * 64) [] p

/-- `pathlib`'s `relative_to` succeeds exactly when `root` is a segmentwise
prefix of `p` (the path equal to the root included). -/
def isWithin (root p : AbsPath) : Bool := root.isPrefixOf p

/-- Errors a virtual-filesystem operation can answer with: the permission
denial (`SFTP_PERMISSION_DENIED`, whether returned by the gate or raised by
`_realpath`), or an uncaught resolution `OSError`. -/
inductive SftpError
  | permissionDenied
  | osError
deriving Repr, DecidableEq

/-- `_realpath` of `ProductionSFTPServer`: strip leading slashes, join onto
the session root, normalize lexically (`os.path.abspath`), then require the
physical resolution of the result to stay inside the physical resolution of
the session root; an escape is `SFTP_PERMISSION_DENIED`.  Returns the
(unresolved) normalized absolute path. -/
def sftp_realpath (links : SymTable) (user_root : AbsPath) (path : String) :
    Except SftpError AbsPath :=
  let full_path := normalizeSegs (user_root ++ splitPathSegs path)
  match pyResolve links full_path, pyResolve links user_root with
  | some rp, some rr =>
      if isWithin rr rp then .ok full_path else .error .permissionDenied
  | _, _ => .error .osError

/-- The session-facing state of `ProductionSFTPServer`: the authenticated
user (Python-falsy when `None` or empty) and the user manager's
username-to-permission-set directory (`None` when absent). -/
structure SftpSession where
  current_user : Option String
  users : Option (List (String × List String))
deriving Repr, DecidableEq

/-- `UserManager.get_user_permissions`: the user's permission set, empty for
an unknown user. -/
def get_user_permissions (users : List (String × List String)) (u : String) :
    List String :=
  (((users.find? (fun x => x.1 == u)).map (·.2)).getD [])

/-- The `permission_map` of `_check_permission` (unknown operations default
to `read`). -/
def permission_map (operation : String) : String :=
  if operation = "read" then "read"
  else if operation = "write" then "write"
  else if operation = "delete" then "delete"
  else if operation = "mkdir" then "write"
  else if operation = "rmdir" then "delete"
  else if operation = "rename" then "write"
  else "read"

/-- `_check_permission` of `ProductionSFTPServer`: false without an
authenticated user or a user manager, else a membership test of the mapped
permission in the user's permission set. -/
def check_permission (sess : SftpSession) (operation : String) : Bool :=
  match sess.current_user, sess.users with
  | some u, some users =>
      if u = "" then false
      else (get_user_permissions users u).contains (permission_map operation)
  | _, _ => false

/-- The path-accepting operations of `ProductionSFTPServer` that take one
client path.  `open` appears as its two permission-relevant cases: with a
write-ish flag (`O_WRONLY`/`O_RDWR`/`O_CREAT`) or without. -/
inductive VfsOp
  | listFolder
  | statF
  | lstatF
  | openForRead
  | openForWrite
  | removeF
  | mkdirF
  | rmdirF
deriving Repr, DecidableEq

/-- The operation string each handler passes to `_check_permission`. -/
def opPermArg : VfsOp → String
  | .listFolder => "read"
  | .statF => "read"
  | .lstatF => "read"
  | .openForRead => "read"
  | .openForWrite => "write"
  | .removeF => "delete"
  | .mkdirF => "mkdir"
  | .rmdirF => "rmdir"

/-- A host filesystem call issued on a resolved path. -/
inductive FsCall
  | listdirAt (p : AbsPath)
  | statAt (p : AbsPath)
  | lstatAt (p : AbsPath)
  | openAt (p : AbsPath)
  | removeAt (p : AbsPath)
  | makedirsAt (p : AbsPath)
  | rmdirAt (p : AbsPath)
  | renameAt (oldp newp : AbsPath)
deriving Repr, DecidableEq

/-- The host filesystem call a single-path operation performs on its
resolved path. -/
def fsCallOf : VfsOp → AbsPath → FsCall
  | .listFolder, p => .listdirAt p
  | .statF, p => .statAt p
  | .lstatF, p => .lstatAt p
  | .openForRead, p => .openAt p
  | .openForWrite, p => .openAt p
  | .removeF, p => .removeAt p
  | .mkdirF, p => .makedirsAt p
  | .rmdirF, p => .rmdirAt p

/-- A single-path handler of `ProductionSFTPServer`, up to its first host
filesystem call: the permission gate, then `_realpath`, then the call on the
returned path.  The second component lists the host filesystem calls made. -/
def runPathOp (op : VfsOp) (sess : SftpSession) (links : SymTable)
    (user_root : AbsPath) (path : String) :
    Except SftpError AbsPath × List FsCall :=
  if check_permission sess (opPermArg op) then
    match sftp_realpath links user_root path with
    | .error e => (.error e, [])
    | .ok full => (.ok full, [fsCallOf op full])
  else (.error .permissionDenied, [])

/-- The `rename` handler: its gate, `_realpath` on the old then the new
path, then the host `os.rename`. -/
def runRename (sess : SftpSession) (links : SymTable) (user_root : AbsPath)
    (oldpath newpath : String) :
    Except SftpError (AbsPath × AbsPath) × List FsCall :=
  if check_permission sess "rename" then
    match sftp_realpath links user_root oldpath with
    | .error e => (.error e, [])
    | .ok o =>
        match sftp_realpath links user_root newpath with
        | .error e => (.error e, [])
        | .ok n => (.ok (o, n), [.renameAt o n])
  else (.error .permissionDenied, [])

/-! ## Specification-side definitions

Definitions written from the specification's words, to compare against the
definitions translated from the code. -/

/-- The permission the specification assigns to each virtual-filesystem
operation: `read` for list/stat/open-for-read, `write` for open-for-write,
mkdir and rename, `delete` for remove and rmdir (rename appears separately
in `runRename`). -/
def specRequiredPerm : VfsOp → String
  | .listFolder => "read"
  | .statF => "read"
  | .lstatF => "read"
  | .openForRead => "read"
  | .openForWrite => "write"
  | .removeF => "delete"
  | .mkdirF => "write"
  | .rmdirF => "delete"

/-- The extension rule of the file-drop storage path: the original
filename's suffix verbatim, `bin` when there is none. -/
def sftpFileExt (original_path : String) : String :=
  let e := lstripDot (pyPathSuffix original_path)
  if e = "" then "bin" else e

/-! ## Helper lemmas -/

/-- `store_metadata` in closed form: a duplicate fingerprint aborts the
transaction, so the `ingestion_log` insert fails as well and the whole call
rolls back; a fresh fingerprint commits the record and the `ingested` log
row together. -/
theorem store_metadata_eq (env : ApiEnvelope) (fp : Bytes) (path : String) (db : DB) :
    store_metadata env fp path db =
      if db.hasApiFingerprint fp then (.error .inFailedSQLTransaction, db)
      else (.ok (), { db with
        apiRecords := db.apiRecords ++
          [⟨env.uuid, env.format, env.content_type, env.subtype, env.version, path, fp⟩],
        log := db.log ++ [⟨env.uuid, "ingested", none⟩] }) := by
  by_cases h : db.hasApiFingerprint fp <;>
    simp [store_metadata, Txn.execute, h]

/-- `store_sftp_metadata` in closed form, analogously. -/
theorem store_sftp_metadata_eq (file_uuid original_path username : String)
    (size : Nat) (fp : Bytes) (storage_path : String) (db : DB) :
    store_sftp_metadata file_uuid original_path username size fp storage_path db =
      if db.hasSftpFingerprint fp then (.error .inFailedSQLTransaction, db)
      else (.ok (), { db with
        sftpRecords := db.sftpRecords ++
          [⟨file_uuid, "sftp",
            (if pyLower (lstripDot (pyPathSuffix original_path)) = "" then "unknown"
             else pyLower (lstripDot (pyPathSuffix original_path))),
            content_type_map (pyLower (lstripDot (pyPathSuffix original_path))),
            (if pyPathStem original_path = "" then "document" else pyPathStem original_path),
            "1.0", storage_path, fp,
            ⟨username, original_path, pyPathName original_path, size, "sftp"⟩⟩],
        log := db.log ++ [⟨file_uuid, "ingested",
          some ("SFTP upload: " ++ original_path ++ " by " ++ username ++
            " (" ++ toString size ++ " bytes)")⟩] }) := by
  by_cases h : db.hasSftpFingerprint fp <;>
    simp [store_sftp_metadata, Txn.execute, h]

/-! ## Claim theorems -/

/-- C6: for every request-based envelope the derived storage path is
`bronze/<content_type>/<format>/<subtype>/<first 16 hex chars of the
SHA-256 fingerprint>.<ext>` with `<ext>` the lowercased declared format;
in particular the 5-byte payload `"hello"` with
`content_type=fhir, format=json, subtype=patient` yields
`bronze/fhir/json/patient/2cf24dba5fb0a30e.json`. -/
theorem api_storage_path_convention :
    (∀ (env : ApiEnvelope) (fp_hex : String),
      build_path_by_fp env fp_hex =
        "bronze" ++ "/" ++ env.content_type ++ "/" ++ env.format ++ "/" ++
          env.subtype ++ "/" ++ pyTake fp_hex 16 ++ "." ++ pyLower env.format) ∧
    bytesHex (api_compute_fingerprint (strBytes "hello")) =
      "2cf24dba5fb0a30e26e83b2ac5b9e29e1b161e5c1fa7425e73043362938b9824" ∧
    build_path_by_fp ⟨"id-1", "json", "fhir", "patient", "r6", strBytes "hello"⟩
        (bytesHex (api_compute_fingerprint (strBytes "hello"))) =
      "bronze/fhir/json/patient/2cf24dba5fb0a30e.json" := by
  refine ⟨fun env fp_hex => ?_, by decide, by decide⟩
  apply String.ext
  simp [build_path_by_fp, pyJoin, String.data_append, List.append_assoc]

/-- C7 counterexample: the extension of the file-drop storage path is taken
verbatim from the original filename, not lowercased — an upload named
`DATA.JSON` lands at `....JSON`, so the claimed lowercase-extension path is
not produced. -/
theorem sftp_path_extension_not_lowercased :
    build_path_for_sftp_file "/uploads/bob/DATA.JSON"
        (bytesHex (sftp_compute_fingerprint [])) "bob" =
      "bronze/sftp/bob/e3b0c44298fc1c14.JSON" ∧
    build_path_for_sftp_file "/uploads/bob/DATA.JSON"
        (bytesHex (sftp_compute_fingerprint [])) "bob" ≠
      "bronze/sftp/bob/e3b0c44298fc1c14.json" := by
  exact ⟨by decide, by decide⟩

/-- C7 (amended): for every file-drop envelope the derived storage path is
`bronze/sftp/<username>/<first 16 hex chars of SHA-256(file bytes)>.<ext>`,
with `<ext>` the original filename's extension verbatim and `bin` when the
filename has no extension; a 0-byte upload by user `bob` with an
extensionless name yields `bronze/sftp/bob/e3b0c44298fc1c14.bin`, with the
fingerprint of empty input. -/
theorem sftp_storage_path_convention :
    (∀ (original_path fp_hex username : String),
      build_path_for_sftp_file original_path fp_hex username =
        "bronze" ++ "/" ++ "sftp" ++ "/" ++ username ++ "/" ++
          pyTake fp_hex 16 ++ "." ++ sftpFileExt original_path) ∧
    bytesHex (sftp_compute_fingerprint []) =
      "e3b0c44298fc1c149afbf4c8996fb92427ae41e4649b934ca495991b7852b855" ∧
    build_path_for_sftp_file "upload" (bytesHex (sftp_compute_fingerprint [])) "bob" =
      "bronze/sftp/bob/e3b0c44298fc1c14.bin" := by
  refine ⟨fun original_path fp_hex username => ?_, by decide, by decide⟩
  apply String.ext
  simp [build_path_for_sftp_file, sftpFileExt, pyJoin, String.data_append,
    List.append_assoc]

/-- C9: the fingerprint functions of the two pipeline variants agree on
every byte sequence and equal the 32-byte SHA-256 digest of those bytes; in
a fresh successful run, the bytes handed to the storage adapter are exactly
the fingerprinted payload bytes and the recorded fingerprint is their
digest. -/
theorem fingerprint_origin_independent :
    (∀ data : Bytes, sftp_compute_fingerprint data = api_compute_fingerprint data) ∧
    (∀ data : Bytes, api_compute_fingerprint data = sha256 data) ∧
    (∀ data : Bytes, (api_compute_fingerprint data).length = 32) ∧
    (∀ (env : ApiEnvelope) (st : Storage) (db : DB),
      db.hasApiFingerprint (api_compute_fingerprint env.body) = false →
      (process_message env true st db).2.1.files =
        st.files ++
          [(build_path_by_fp env (bytesHex (api_compute_fingerprint env.body)), env.body)] ∧
      (process_message env true st db).2.2.apiRecords =
        db.apiRecords ++
          [⟨env.uuid, env.format, env.content_type, env.subtype, env.version,
            build_path_by_fp env (bytesHex (api_compute_fingerprint env.body)),
            api_compute_fingerprint env.body⟩]) := by
  refine ⟨fun data => rfl, fun data => rfl, ?_, ?_⟩
  · intro data
    simp [api_compute_fingerprint, sha256, digestBytes, be32]
  · intro env st db h
    simp only [DB.hasApiFingerprint] at h
    simp [process_message, store_metadata_eq, api_write_to_storage, log_ingestion,
      DB.hasApiFingerprint, h]

/-- C9 witness: the fresh-run conjunct evaluated at a concrete envelope and
the empty database. -/
theorem fingerprint_origin_independent_witness :
    (process_message ⟨"u1", "json", "fhir", "patient", "r6", strBytes "hi"⟩ true
        ⟨[]⟩ DB.empty).2.1.files =
      [(build_path_by_fp ⟨"u1", "json", "fhir", "patient", "r6", strBytes "hi"⟩
          (bytesHex (api_compute_fingerprint (strBytes "hi"))), strBytes "hi")] :=
  (fingerprint_origin_independent.2.2.2
    ⟨"u1", "json", "fhir", "patient", "r6", strBytes "hi"⟩ ⟨[]⟩ DB.empty (by decide)).1

/-- C1 (code bug): a file-drop run whose storage write fails still deletes
the original uploaded file and logs `cleaned_up` — because `write_to_storage`
swallows the adapter error after logging `failed` (the status
`storage_failed` is never produced anywhere), `cleanup_uploaded_file` runs
unconditionally.  Evaluated at a concrete failing input. -/
theorem sftp_storage_write_failure_still_cleans_up :
    (process_sftp_message "u1" ⟨"/up/alice/d.txt", "alice", 2⟩ false true
        [("/up/alice/d.txt", strBytes "hi")] ⟨[]⟩ DB.empty).1 = .ok () ∧
    (process_sftp_message "u1" ⟨"/up/alice/d.txt", "alice", 2⟩ false true
        [("/up/alice/d.txt", strBytes "hi")] ⟨[]⟩ DB.empty).2.1 = [] ∧
    (process_sftp_message "u1" ⟨"/up/alice/d.txt", "alice", 2⟩ false true
        [("/up/alice/d.txt", strBytes "hi")] ⟨[]⟩ DB.empty).2.2.2.log.map (·.status) =
      ["started", "ingested", "failed", "cleaned_up"] := by
  exact ⟨by decide, by decide, by decide⟩

/-- C2 (code bug): the `ingestion_log` insert of the dedup operation lives
in the same transaction as the metadata insert, so when the fingerprint
uniqueness constraint rejects the insert, the aborted transaction also
rejects the log insert: the call returns an error and leaves the database —
log included — unchanged, instead of appending a `duplicate` entry in a
separate transaction.  Evaluated at a concrete duplicate input. -/
theorem store_metadata_duplicate_loses_log_entry :
    store_metadata ⟨"u2", "json", "fhir", "patient", "r6", strBytes "hello"⟩
        (api_compute_fingerprint (strBytes "hello")) "p"
        ((process_message ⟨"u1", "json", "fhir", "patient", "r6", strBytes "hello"⟩
            true ⟨[]⟩ DB.empty).2.2) =
      (.error .inFailedSQLTransaction,
        (process_message ⟨"u1", "json", "fhir", "patient", "r6", strBytes "hello"⟩
            true ⟨[]⟩ DB.empty).2.2) := by
  decide

/-- C4 (code bug): re-ingesting the same bytes leaves exactly one unchanged
IngestionRecord, but the second attempt appends no `duplicate` log entry —
its log insert fails inside the aborted transaction and the error
propagates out of the processing call.  Evaluated at the 5-byte payload
`"hello"` ingested twice. -/
theorem reingest_same_bytes_no_duplicate_entry :
    (process_message ⟨"u1", "json", "fhir", "patient", "r6", strBytes "hello"⟩
        true ⟨[]⟩ DB.empty).2.2.apiRecords.length = 1 ∧
    (process_message ⟨"u2", "json", "fhir", "patient", "r6", strBytes "hello"⟩
        true ⟨[]⟩
        (process_message ⟨"u1", "json", "fhir", "patient", "r6", strBytes "hello"⟩
          true ⟨[]⟩ DB.empty).2.2).1 = .error .inFailedSQLTransaction ∧
    (process_message ⟨"u2", "json", "fhir", "patient", "r6", strBytes "hello"⟩
        true ⟨[]⟩
        (process_message ⟨"u1", "json", "fhir", "patient", "r6", strBytes "hello"⟩
          true ⟨[]⟩ DB.empty).2.2).2.2.apiRecords =
      (process_message ⟨"u1", "json", "fhir", "patient", "r6", strBytes "hello"⟩
        true ⟨[]⟩ DB.empty).2.2.apiRecords ∧
    ((process_message ⟨"u2", "json", "fhir", "patient", "r6", strBytes "hello"⟩
        true ⟨[]⟩
        (process_message ⟨"u1", "json", "fhir", "patient", "r6", strBytes "hello"⟩
          true ⟨[]⟩ DB.empty).2.2).2.2.log.filter
        (·.status == "duplicate")).length = 0 ∧
    (process_message ⟨"u2", "json", "fhir", "patient", "r6", strBytes "hello"⟩
        true ⟨[]⟩
        (process_message ⟨"u1", "json", "fhir", "patient", "r6", strBytes "hello"⟩
          true ⟨[]⟩ DB.empty).2.2).2.2.log.map (·.status) =
      ["started", "ingested", "complete", "started"] := by
  exact ⟨by decide, by decide, by decide, by decide, by decide⟩

/-- C5 counterexample: a message whose processing throws is committed only
by the file-drop consume loop.  The request-based loop commits nothing for
the failing message and never reaches the next one, refuting the claim for
that variant. -/
theorem api_loop_halts_without_commit_on_failure :
    apiMainLoop (fun m : Nat => if m = 0 then (.error () : Except Unit Unit) else .ok ())
        [0, 1] =
      ([(0, .error ())], 0, some ()) ∧
    sftpMainLoop (fun m : Nat => if m = 0 then (.error () : Except Unit Unit) else .ok ())
        [0, 1] =
      ([(0, .error ()), (1, .ok ())], 2) := by
  exact ⟨by decide, by decide⟩

/-- C5 (amended): the file-drop consume loop attempts every message and
commits every offset even when processing throws; the request-based loop
commits a message only after successful processing and stops at the first
processing exception without committing it. -/
theorem consumer_loop_commit_discipline :
    (∀ {M E : Type} (process : M → Except E Unit) (msgs : List M),
      sftpMainLoop process msgs = (msgs.map (fun m => (m, process m)), msgs.length)) ∧
    (∀ {M E : Type} (process : M → Except E Unit) (m : M) (ms : List M) (e : E),
      process m = .error e →
      apiMainLoop process (m :: ms) = ([(m, .error e)], 0, some e)) ∧
    (∀ {M E : Type} (process : M → Except E Unit) (msgs : List M),
      (∀ m ∈ msgs, process m = .ok ()) →
      apiMainLoop process msgs = (msgs.map (fun m => (m, .ok ())), msgs.length, none)) := by
  refine ⟨?_, ?_, ?_⟩
  · intro M E process msgs
    induction msgs with
    | nil => rfl
    | cons m ms ih => simp [sftpMainLoop, ih]
  · intro M E process m ms e h
    simp [apiMainLoop, h]
  · intro M E process msgs h
    induction msgs with
    | nil => rfl
    | cons m ms ih =>
        have hm := h m (by simp)
        have ih' := ih (fun x hx => h x (by simp [hx]))
        simp [apiMainLoop, hm, ih']

/-- C5 witness: the amended commit discipline evaluated at a concrete
all-successful run of the request-based loop. -/
theorem consumer_loop_commit_discipline_witness :
    apiMainLoop (fun _ : Nat => (.ok () : Except Unit Unit)) [1, 2] =
      ([(1, .ok ()), (2, .ok ())], 2, none) :=
  consumer_loop_commit_discipline.2.2 (fun _ : Nat => (.ok () : Except Unit Unit))
    [1, 2] (by decide)

/-- C3: a client path whose physical resolution against the session root
lands outside the root's physical resolution is answered with a permission
error by every path-accepting operation — and by `rename` for either of its
two paths — with no host filesystem call issued. -/
theorem vfs_path_escape_rejected :
    (∀ (op : VfsOp) (sess : SftpSession) (links : SymTable) (user_root : AbsPath)
        (path : String) (rr rp : AbsPath),
      pyResolve links user_root = some rr →
      pyResolve links (normalizeSegs (user_root ++ splitPathSegs path)) = some rp →
      isWithin rr rp = false →
      runPathOp op sess links user_root path = (.error .permissionDenied, [])) ∧
    (∀ (sess : SftpSession) (links : SymTable) (user_root : AbsPath)
        (oldpath newpath : String) (rr ro : AbsPath),
      pyResolve links user_root = some rr →
      pyResolve links (normalizeSegs (user_root ++ splitPathSegs oldpath)) = some ro →
      isWithin rr ro = false →
      runRename sess links user_root oldpath newpath = (.error .permissionDenied, [])) ∧
    (∀ (sess : SftpSession) (links : SymTable) (user_root : AbsPath)
        (oldpath newpath : String) (o rr rn : AbsPath),
      sftp_realpath links user_root oldpath = .ok o →
      pyResolve links user_root = some rr →
      pyResolve links (normalizeSegs (user_root ++ splitPathSegs newpath)) = some rn →
      isWithin rr rn = false →
      runRename sess links user_root oldpath newpath = (.error .permissionDenied, [])) := by
  refine ⟨?_, ?_, ?_⟩
  · intro op sess links user_root path rr rp h1 h2 h3
    simp [runPathOp, sftp_realpath, h1, h2, h3]
  · intro sess links user_root oldpath newpath rr ro h1 h2 h3
    simp [runRename, sftp_realpath, h1, h2, h3]
  · intro sess links user_root oldpath newpath o rr rn ho h1 h2 h3
    have hnew : sftp_realpath links user_root newpath = .error .permissionDenied := by
      simp [sftp_realpath, h1, h2, h3]
    simp [runRename, ho, hnew]

/-- C3 witness: the traversal path `../../etc/passwd` under session root
`/data/bob` is rejected with a permission error and no filesystem call,
for a fully-permitted session. -/
theorem vfs_path_escape_rejected_witness :
    runPathOp .listFolder ⟨some "bob", some [("bob", ["read", "write", "delete"])]⟩
        [] ["data", "bob"] "../../etc/passwd" =
      (.error .permissionDenied, []) :=
  vfs_path_escape_rejected.1 .listFolder
    ⟨some "bob", some [("bob", ["read", "write", "delete"])]⟩
    [] ["data", "bob"] "../../etc/passwd" ["data", "bob"] ["etc", "passwd"]
    (by decide) (by decide) (by decide)

/-- C8: for an authenticated session whose user is in the directory, the
permission gate accepts an operation exactly when the session's permission
set contains the permission the specification maps to it (`read` for
list/stat/open-for-read, `write` for open-for-write/mkdir/rename, `delete`
for remove/rmdir); lacking it, the operation is rejected with a permission
error before any filesystem call. -/
theorem vfs_permission_gate_matches_spec :
    ∀ (op : VfsOp) (u : String) (perms : List String) (links : SymTable)
      (user_root : AbsPath) (path oldpath newpath : String),
      u ≠ "" →
      (check_permission ⟨some u, some [(u, perms)]⟩ (opPermArg op) = true ↔
        specRequiredPerm op ∈ perms) ∧
      (specRequiredPerm op ∉ perms →
        runPathOp op ⟨some u, some [(u, perms)]⟩ links user_root path =
          (.error .permissionDenied, [])) ∧
      (check_permission ⟨some u, some [(u, perms)]⟩ "rename" = true ↔ "write" ∈ perms) ∧
      ("write" ∉ perms →
        runRename ⟨some u, some [(u, perms)]⟩ links user_root oldpath newpath =
          (.error .permissionDenied, [])) := by
  intro op u perms links user_root path oldpath newpath hu
  have hmap : permission_map (opPermArg op) = specRequiredPerm op := by
    cases op <;> rfl
  have hgate : ∀ operation : String,
      check_permission ⟨some u, some [(u, perms)]⟩ operation =
        perms.contains (permission_map operation) := by
    intro operation
    simp [check_permission, get_user_permissions, hu, List.find?]
  refine ⟨?_, ?_, ?_, ?_⟩
  · rw [hgate, hmap]
    simp [List.contains, List.elem_iff]
  · intro hnot
    have : check_permission ⟨some u, some [(u, perms)]⟩ (opPermArg op) = false := by
      rw [hgate, hmap]
      simp [List.contains, List.elem_iff, hnot]
    simp [runPathOp, this]
  · rw [hgate]
    simp [permission_map, List.contains, List.elem_iff]
  · intro hnot
    have : check_permission ⟨some u, some [(u, perms)]⟩ "rename" = false := by
      rw [hgate]
      simp [permission_map, List.contains, List.elem_iff, hnot]
    simp [runRename, this]

/-- C8 witness: user `bob` with permission set `{read}`: the `mkdir` gate
refuses (it requires `write`) and the operation is rejected with a
permission error and no filesystem call. -/
theorem vfs_permission_gate_matches_spec_witness :
    ¬ ("write" ∈ (["read"] : List String)) ∧
    runPathOp .mkdirF ⟨some "bob", some [("bob", ["read"])]⟩ [] ["data", "bob"] "sub" =
      (.error .permissionDenied, []) :=
  ⟨by decide,
   (vfs_permission_gate_matches_spec .mkdirF "bob" ["read"] [] ["data", "bob"]
      "sub" "a" "b" (by decide)).2.1 (by decide)⟩

/-- C10 counterexample: processing the same file-drop envelope twice with
the two freshly generated UUIDs of the two runs attaches different
identifiers to the resulting record and log rows, so the identifier is not
determined by the envelope. -/
theorem sftp_identifier_not_envelope_determined :
    (process_sftp_message "uuid-1" ⟨"/up/alice/f.txt", "alice", 2⟩ true true
        [("/up/alice/f.txt", strBytes "hi")] ⟨[]⟩ DB.empty).2.2.2.sftpRecords.map
        (·.object_id) = ["uuid-1"] ∧
    (process_sftp_message "uuid-2" ⟨"/up/alice/f.txt", "alice", 2⟩ true true
        [("/up/alice/f.txt", strBytes "hi")] ⟨[]⟩ DB.empty).2.2.2.sftpRecords.map
        (·.object_id) = ["uuid-2"] ∧
    (["uuid-1"] : List String) ≠ ["uuid-2"] := by
  exact ⟨by decide, by decide, by decide⟩

/-- C10 (amended): the identifier attached to the record and log rows of a
file-drop run is exactly the UUID generated for that run: the run only
appends rows, and every appended record and log row carries that UUID — so
two runs on the same envelope agree only if their generated UUIDs do. -/
theorem sftp_identifier_is_generated_uuid :
    ∀ (file_uuid : String) (env : SftpEnvelope) (fsOk removeOk : Bool)
      (lfs : LocalFS) (st : Storage) (db : DB),
      ((process_sftp_message file_uuid env fsOk removeOk lfs st db).2.2.2.log.take
          db.log.length = db.log) ∧
      (((process_sftp_message file_uuid env fsOk removeOk lfs st db).2.2.2.log.drop
          db.log.length).all (fun e => e.object_id == file_uuid) = true) ∧
      ((process_sftp_message file_uuid env fsOk removeOk lfs st db).2.2.2.sftpRecords.take
          db.sftpRecords.length = db.sftpRecords) ∧
      (((process_sftp_message file_uuid env fsOk removeOk lfs st db).2.2.2.sftpRecords.drop
          db.sftpRecords.length).all (fun r => r.object_id == file_uuid) = true) := by
  intro file_uuid env fsOk removeOk lfs st db
  rcases hf : lookupFile env.path lfs with _ | payload
  · simp [process_sftp_message, hf, log_ingestion, List.take_left, List.drop_left]
  · by_cases hd : db.hasSftpFingerprint (sftp_compute_fingerprint payload) = true
    · simp only [DB.hasSftpFingerprint] at hd
      simp [process_sftp_message, hf, store_sftp_metadata_eq, DB.hasSftpFingerprint,
        hd, log_ingestion, List.take_left, List.drop_left]
    · simp only [Bool.not_eq_true, DB.hasSftpFingerprint] at hd
      cases fsOk <;> cases removeOk <;>
        simp [process_sftp_message, hf, store_sftp_metadata_eq, DB.hasSftpFingerprint,
          hd, log_ingestion, sftp_write_to_storage, cleanup_uploaded_file,
          List.take_left, List.drop_left, List.append_assoc]

end MmBronze
